import Mathlib

/-!
Verification of the solana-data-aggregator core: the keyed record store
(src/db.rs), the ingestion loop of the aggregator (src/aggregator.rs) and
the query handler (src/api.rs), shallowly embedded in Lean 4.

External collaborators (serde_json, the Solana RPC client, signature and
pubkey parsing, chrono's date machinery) enter the embedding as explicit
function parameters or as faithful models of the documented behaviour of
the calls the source makes.
-/

set_option autoImplicit false

namespace Solana

/-- `TransactionData` (src/db.rs lines 10-16): a normalized transaction
record. `amount` and `timestamp` are Rust `u64` fields, modelled as `Nat`
values below `2^64`; the operations that produce them reduce modulo `2^64`
exactly where the source performs `u64` arithmetic or an `as u64` cast. -/
structure TransactionData where
  signature : String
  sender : String
  receiver : String
  amount : Nat
  timestamp : Nat
  deriving Repr, DecidableEq

/-- The in-memory map `InMemoryDatabase.transactions`
(`HashMap<String, Vec<TransactionData>>`, src/db.rs line 21), modelled as an
association list with unique keys by construction; the source never
observes the hash map's iteration order. -/
abbrev Store := List (String × List TransactionData)

/-- `HashMap::get` on the association-list model of the store. -/
def getEntry : Store → String → Option (List TransactionData)
  | [], _ => none
  | (k', v) :: rest, k => if k = k' then some v else getEntry rest k

/-- `transactions.entry(k).or_insert_with(Vec::new).push(t)`
(src/db.rs lines 50-53 and 84-87): append `t` to the vector stored under
`k`, creating the vector when the key is absent. -/
def pushEntry : Store → String → TransactionData → Store
  | [], k, t => [(k, [t])]
  | (k', v) :: rest, k, t =>
      if k = k' then (k', v ++ [t]) :: rest else (k', v) :: pushEntry rest k t

/-- The state of an `InMemoryDatabase` (src/db.rs lines 20-23) together
with its backing file: the in-memory map plus the file's lines (the file
at `file_path`; an absent file is the empty line list). -/
structure DBState where
  transactions : Store
  fileLines : List String
  deriving Repr, DecidableEq

/-- `InMemoryDatabase::add_transaction` (src/db.rs lines 48-66): push the
record into the in-memory map under `pub_key`, then append its
serialization as one line to the backing file. `serialize` models the
external `serde_json::to_string` (whose `Result` is unwrapped by the
source with `expect`, and which cannot fail on this data type). -/
def add_transaction (serialize : TransactionData → String) (db : DBState)
    (pub_key : String) (transaction : TransactionData) : DBState :=
  { transactions := pushEntry db.transactions pub_key transaction
    fileLines := db.fileLines ++ [serialize transaction] }

/-- The body of the line loop of `load_from_file` (src/db.rs lines 79-90):
a line that `deserialize` (the external
`serde_json::from_str::<TransactionData>`) rejects is skipped; a parsed
record is pushed under the key `transaction.sender`. -/
def loadLine (deserialize : String → Option TransactionData)
    (m : Store) (line : String) : Store :=
  match deserialize line with
  | some transaction => pushEntry m transaction.sender transaction
  | none => m

/-- `InMemoryDatabase::load_from_file` (src/db.rs lines 73-92): read the
backing file line by line, feeding each line to `loadLine`. -/
def load_from_file (deserialize : String → Option TransactionData)
    (db : DBState) : DBState :=
  { db with transactions := db.fileLines.foldl (loadLine deserialize) db.transactions }

/-- `InMemoryDatabase::get_transactions` (src/db.rs lines 104-107):
`transactions.get(pub_key).cloned().unwrap_or_else(Vec::new)`. The method
takes the lock, clones the vector and returns; in state-passing style it
returns the snapshot together with the (unmodified) database state. -/
def get_transactions (db : DBState) (pub_key : String) :
    List TransactionData × DBState :=
  ((getEntry db.transactions pub_key).getD [], db)

theorem getEntry_pushEntry_same (s : Store) (k : String) (t : TransactionData) :
    getEntry (pushEntry s k t) k = some ((getEntry s k).getD [] ++ [t]) := by
  induction s with
  | nil => simp [pushEntry, getEntry]
  | cons hd tl ih =>
    obtain ⟨k', v⟩ := hd
    by_cases h : k = k'
    · simp [pushEntry, getEntry, h]
    · simp [pushEntry, getEntry, h, ih]

theorem getEntry_pushEntry_ne (s : Store) (k k' : String) (t : TransactionData)
    (h : k ≠ k') : getEntry (pushEntry s k' t) k = getEntry s k := by
  induction s with
  | nil => simp [pushEntry, getEntry, h]
  | cons hd tl ih =>
    obtain ⟨k'', v⟩ := hd
    by_cases h' : k' = k''
    · subst h'
      simp [pushEntry, getEntry, h]
    · by_cases h'' : k = k''
      · simp [pushEntry, getEntry, h', h'']
      · simp [pushEntry, getEntry, h', h'', ih]

/-- C1: after `add_transaction pub_key t`, `get_transactions pub_key`
returns the previously stored sequence with `t` appended: `t` is the last
element, and every previously stored record is still present, unaltered,
and at its previous position. -/
theorem C1_insert_then_query (serialize : TransactionData → String)
    (db : DBState) (pub_key : String) (t : TransactionData) :
    (get_transactions (add_transaction serialize db pub_key t) pub_key).1
        = (get_transactions db pub_key).1 ++ [t] ∧
    ((get_transactions (add_transaction serialize db pub_key t) pub_key).1).getLast?
        = some t := by
  constructor
  · simp [get_transactions, add_transaction, getEntry_pushEntry_same]
  · simp [get_transactions, add_transaction, getEntry_pushEntry_same]

/-- The total number of records held in the in-memory map. -/
def totalCount (s : Store) : Nat := (s.map fun e => e.2.length).sum

theorem totalCount_pushEntry (s : Store) (k : String) (t : TransactionData) :
    totalCount (pushEntry s k t) = totalCount s + 1 := by
  induction s with
  | nil => simp [pushEntry, totalCount]
  | cons hd tl ih =>
    obtain ⟨k', v⟩ := hd
    by_cases h : k = k'
    · simp [pushEntry, totalCount, h]
      omega
    · simp only [pushEntry, if_neg h]
      simp [totalCount] at ih ⊢
      omega

theorem getEntry_loadLine_foldl (deserialize : String → Option TransactionData)
    (lines : List String) (m : Store) (k : String) :
    (getEntry (lines.foldl (loadLine deserialize) m) k).getD []
      = (getEntry m k).getD []
          ++ (lines.filterMap deserialize).filter (fun t => decide (t.sender = k)) := by
  induction lines generalizing m with
  | nil => simp
  | cons line rest ih =>
    simp only [List.foldl_cons, List.filterMap_cons]
    cases hd : deserialize line with
    | none => simpa [loadLine, hd] using ih m
    | some t =>
      rw [show loadLine deserialize m line = pushEntry m t.sender t from by
            simp [loadLine, hd],
          ih (pushEntry m t.sender t)]
      by_cases hs : t.sender = k
      · subst hs
        simp [getEntry_pushEntry_same]
      · rw [getEntry_pushEntry_ne _ _ _ _ (fun h => hs h.symm)]
        simp [hs]

theorem totalCount_loadLine_foldl (deserialize : String → Option TransactionData)
    (lines : List String) (m : Store) :
    totalCount (lines.foldl (loadLine deserialize) m)
      = totalCount m + (lines.filterMap deserialize).length := by
  induction lines generalizing m with
  | nil => simp
  | cons line rest ih =>
    simp only [List.foldl_cons, List.filterMap_cons]
    cases hd : deserialize line with
    | none => simpa [loadLine, hd] using ih m
    | some t =>
      rw [show loadLine deserialize m line = pushEntry m t.sender t from by
            simp [loadLine, hd],
          ih (pushEntry m t.sender t), totalCount_pushEntry]
      simp
      omega

/-- C4: loading a backing file into an initially empty store populates
exactly as many records as there are deserializable lines; each record ends
up under the key equal to its own `sender` field, and every corrupt line is
skipped without failing the load. -/
theorem C4_load_populates_valid_lines
    (deserialize : String → Option TransactionData) (lines : List String) :
    totalCount (load_from_file deserialize ⟨[], lines⟩).transactions
        = (lines.filterMap deserialize).length ∧
    ∀ k, (get_transactions (load_from_file deserialize ⟨[], lines⟩) k).1
        = (lines.filterMap deserialize).filter (fun t => decide (t.sender = k)) := by
  constructor
  · rw [load_from_file]
    simpa [totalCount] using totalCount_loadLine_foldl deserialize lines []
  · intro k
    show (getEntry ((⟨[], lines⟩ : DBState).fileLines.foldl
        (loadLine deserialize) []) k).getD [] = _
    rw [getEntry_loadLine_foldl]
    simp [getEntry]

/-- C10: the store only grows. `get_transactions` returns a snapshot and
leaves the state unchanged, and both mutating operations
(`add_transaction`, `load_from_file`) only extend each key's sequence on
the right: for every key, the sequence stored before is a prefix of the
sequence stored after. -/
theorem C10_store_only_grows :
    (∀ (db : DBState) (k : String), (get_transactions db k).2 = db) ∧
    (∀ (serialize : TransactionData → String) (db : DBState)
        (k' : String) (t : TransactionData) (k : String),
      ∃ s, (get_transactions (add_transaction serialize db k' t) k).1
        = (get_transactions db k).1 ++ s) ∧
    (∀ (deserialize : String → Option TransactionData) (db : DBState) (k : String),
      ∃ s, (get_transactions (load_from_file deserialize db) k).1
        = (get_transactions db k).1 ++ s) := by
  refine ⟨fun db k => rfl, fun serialize db k' t k => ?_, fun deserialize db k => ?_⟩
  · by_cases h : k = k'
    · subst h
      exact ⟨[t], by simp [get_transactions, add_transaction, getEntry_pushEntry_same]⟩
    · exact ⟨[], by simp [get_transactions, add_transaction, getEntry_pushEntry_ne _ _ _ _ h]⟩
  · refine ⟨(db.fileLines.filterMap deserialize).filter (fun t => decide (t.sender = k)), ?_⟩
    show (getEntry (db.fileLines.foldl (loadLine deserialize) db.transactions) k).getD [] = _
    rw [getEntry_loadLine_foldl]
    rfl

/-- `TransactionQueryParams` (src/api.rs lines 12-17): the query
parameters of the `/transactions` endpoint. `limit` and `offset` are Rust
`usize` options, modelled as `Nat` options. -/
structure TransactionQueryParams where
  pub_key : String
  day : Option String
  limit : Option Nat
  offset : Option Nat
  deriving Repr, DecidableEq

/-- The two replies `handle_get_transactions` can produce
(src/api.rs lines 67-73 and 96): a JSON array of records, or the
`BAD_REQUEST` error object with its `error` and `details` fields. -/
inductive ApiResponse where
  | ok (body : List TransactionData)
  | badRequest (error : String) (details : String)
  deriving Repr, DecidableEq

/-- A `chrono::NaiveDate` value: a proleptic-Gregorian calendar date. -/
structure NDate where
  year : Int
  month : Nat
  day : Nat
  deriving Repr, DecidableEq

/-- Gregorian leap-year rule, as implemented by the external chrono crate. -/
def isLeapYear (y : Int) : Bool :=
  (y % 4 == 0 && y % 100 != 0) || y % 400 == 0

/-- Number of days of month `m` (1-12) of year `y`. -/
def daysInMonth (y : Int) (m : Nat) : Nat :=
  if m = 2 then (if isLeapYear y then 29 else 28)
  else if m = 4 ∨ m = 6 ∨ m = 9 ∨ m = 11 then 30
  else 31

/-- Read at most `w` leading decimal digits, returning them and the rest
of the input (the scanner of chrono's numeric format items). -/
def takeDigits : Nat → List Char → List Char × List Char
  | 0, cs => ([], cs)
  | _ + 1, [] => ([], [])
  | w + 1, c :: cs =>
    if c.isDigit then
      let (ds, rest) := takeDigits w cs
      (c :: ds, rest)
    else ([], c :: cs)

/-- The number denoted by a list of decimal digits. -/
def digitsToNat (ds : List Char) : Nat :=
  ds.foldl (fun n c => n * 10 + (c.toNat - 48)) 0

/-- `parse_date` (src/api.rs lines 108-110):
`NaiveDate::parse_from_str(date_str, "%d/%m/%Y")` of the external chrono
crate, modelled on its documented behaviour: `%d` and `%m` each read one
or two digits, `%Y` a digit run (chrono caps years at its supported
magnitude), each literal `/` must match, the whole input must be consumed,
and the three numbers must form a valid calendar date. -/
def parse_date (date_str : String) : Option NDate :=
  match takeDigits 2 date_str.toList with
  | ([], _) => none
  | (dds, afterDay) =>
    match afterDay with
    | '/' :: afterSlash1 =>
      match takeDigits 2 afterSlash1 with
      | ([], _) => none
      | (mds, afterMonth) =>
        match afterMonth with
        | '/' :: afterSlash2 =>
          match takeDigits 6 afterSlash2 with
          | ([], _) => none
          | (yds, afterYear) =>
            if afterYear = [] then
              let d := digitsToNat dds
              let m := digitsToNat mds
              let y := digitsToNat yds
              if 1 ≤ m ∧ m ≤ 12 ∧ 1 ≤ d ∧ d ≤ daysInMonth (y : Int) m
              then some ⟨(y : Int), m, d⟩ else none
            else none
        | _ => none
    | _ => none

/-- Howard Hinnant's civil-from-days algorithm: the proleptic-Gregorian
date of the day numbered `z0` (days since 1970-01-01), as computed by the
external chrono crate's `date_naive()` used in src/api.rs line 125. -/
def civilFromDays (z0 : Int) : NDate :=
  let z : Int := z0 + 719468
  let era : Int := z.fdiv 146097
  let doe : Nat := (z.fmod 146097).toNat
  let yoe : Nat := (doe - doe / 1460 + doe / 36524 - doe / 146096) / 365
  let doy : Nat := doe - (365 * yoe + yoe / 4 - yoe / 100)
  let mp : Nat := (5 * doy + 2) / 153
  let d : Nat := doy - (153 * mp + 2) / 5 + 1
  let m : Nat := if mp < 10 then mp + 3 else mp - 9
  ⟨(if m ≤ 2 then era * 400 + (yoe : Int) + 1 else era * 400 + (yoe : Int)), m, d⟩

/-- Rust `u64 as i64` cast: two's-complement reinterpretation, applied by
the source to `timestamp` in src/api.rs line 123. -/
def u64AsI64 (n : Nat) : Int :=
  let r : Nat := n % 2 ^ 64
  if r < 2 ^ 63 then (r : Int) else (r : Int) - 2 ^ 64

/-- `Utc.timestamp_opt(t, 0).single()` followed by `date_naive()`
(src/api.rs lines 123-125): the UTC calendar date of Unix second `t`, or
`none` when `t` lies outside chrono's supported range (years about
±262000 — no claim depends on the exact cutoff). -/
def chronoTimestampDate (t : Int) : Option NDate :=
  let d := civilFromDays (t.fdiv 86400)
  if -262144 ≤ d.year ∧ d.year ≤ 262142 then some d else none

/-- `is_same_day` (src/api.rs lines 122-129): whether the transaction's
`u64` timestamp, reinterpreted as an `i64` Unix second in UTC, falls on
calendar date `date`; an out-of-range timestamp compares unequal. -/
def is_same_day (timestamp : Nat) (date : NDate) : Bool :=
  match chronoTimestampDate (u64AsI64 timestamp) with
  | some transaction_date => decide (transaction_date = date)
  | none => false

/-- The date-filtering stage of `handle_get_transactions`
(src/api.rs lines 59-77): `none` models the early-return `BAD_REQUEST`
branch taken when the `day` parameter fails to parse. -/
def filterByDay (day : Option String) (transactions : List TransactionData) :
    Option (List TransactionData) :=
  match day with
  | some d =>
    match parse_date d with
    | some date_filter =>
        some (transactions.filter (fun tx => is_same_day tx.timestamp date_filter))
    | none => none
  | none => some transactions

/-- `handle_get_transactions` (src/api.rs lines 49-97): fetch the stored
sequence for `pub_key`, filter it by the optional `day` parameter (failing
fast with the `BAD_REQUEST` error body on a malformed date), then paginate
with `skip(offset)` (default 0) and `take(limit)` (default 5). In
state-passing style the handler also returns the database state, whose
only use is the read `get_transactions`. -/
def handle_get_transactions (params : TransactionQueryParams) (db : DBState) :
    ApiResponse × DBState :=
  let fetched := get_transactions db params.pub_key
  match filterByDay params.day fetched.1 with
  | none =>
      (.badRequest "Invalid date format" "Please use the format dd/mm/yyyy.",
       fetched.2)
  | some filtered =>
      let limit := params.limit.getD 5
      let offset := params.offset.getD 0
      (.ok ((filtered.drop offset).take limit), fetched.2)

/-- C3: whenever date filtering succeeds (in particular whenever `day` is
absent), the handler returns exactly the slice `[o : o+l]` of the filtered
sequence — `min (max (L-o) 0) l` records (here in truncated `Nat`
subtraction), in order, never re-ordered; limit 0 yields an empty result,
offset 0 an unshifted one, and omitted parameters default to limit 5 and
offset 0. -/
theorem C3_pagination_slices (db : DBState) (pub_key : String)
    (day : Option String) (l o : Nat) (filtered : List TransactionData)
    (h : filterByDay day (get_transactions db pub_key).1 = some filtered) :
    (handle_get_transactions ⟨pub_key, day, some l, some o⟩ db).1
        = .ok ((filtered.drop o).take l) ∧
    ((filtered.drop o).take l).length = min (filtered.length - o) l ∧
    (filtered.drop o).take 0 = [] ∧
    (filtered.drop 0).take l = filtered.take l ∧
    (handle_get_transactions ⟨pub_key, day, none, none⟩ db).1
        = (handle_get_transactions ⟨pub_key, day, some 5, some 0⟩ db).1 := by
  refine ⟨?_, ?_, by simp, by simp, ?_⟩
  · simp [handle_get_transactions, h]
  · simp [List.length_take, List.length_drop, Nat.min_comm]
  · simp [handle_get_transactions, h]

/-- Witness for C3 at a concrete store: three records under key `"k"`, no
date filter, limit 2, offset 1 select exactly the second and third. -/
theorem C3_pagination_slices_witness :
    filterByDay none
        (get_transactions
          ⟨[("k", [⟨"s1", "a", "b", 1, 10⟩, ⟨"s2", "a", "b", 2, 20⟩,
                   ⟨"s3", "a", "b", 3, 30⟩])], []⟩ "k").1
      = some [⟨"s1", "a", "b", 1, 10⟩, ⟨"s2", "a", "b", 2, 20⟩,
              ⟨"s3", "a", "b", 3, 30⟩] ∧
    (handle_get_transactions ⟨"k", none, some 2, some 1⟩
        ⟨[("k", [⟨"s1", "a", "b", 1, 10⟩, ⟨"s2", "a", "b", 2, 20⟩,
                 ⟨"s3", "a", "b", 3, 30⟩])], []⟩).1
      = .ok [⟨"s2", "a", "b", 2, 20⟩, ⟨"s3", "a", "b", 3, 30⟩] :=
  ⟨rfl,
   (C3_pagination_slices
      ⟨[("k", [⟨"s1", "a", "b", 1, 10⟩, ⟨"s2", "a", "b", 2, 20⟩,
               ⟨"s3", "a", "b", 3, 30⟩])], []⟩ "k" none 2 1
      [⟨"s1", "a", "b", 1, 10⟩, ⟨"s2", "a", "b", 2, 20⟩,
       ⟨"s3", "a", "b", 3, 30⟩] rfl).1⟩

/-- C8: a `day` parameter that fails to parse as a `dd/mm/yyyy` date makes
the handler return the `BAD_REQUEST` response with the specified error
body, with no filtering or pagination performed (the reply is independent
of the stored records and of `limit`/`offset`) and the stored data
unchanged. -/
theorem C8_invalid_date_rejected (db : DBState) (pub_key day : String)
    (limit offset : Option Nat) (h : parse_date day = none) :
    handle_get_transactions ⟨pub_key, some day, limit, offset⟩ db
      = (.badRequest "Invalid date format" "Please use the format dd/mm/yyyy.",
         db) := by
  simp [handle_get_transactions, filterByDay, h, get_transactions]

/-- Witness for C8 at the spec's concrete scenario: `day = "2021/08/09"`
(a `yyyy/mm/dd` string) is rejected and the store is untouched. -/
theorem C8_invalid_date_rejected_witness :
    parse_date "2021/08/09" = none ∧
    handle_get_transactions ⟨"k", some "2021/08/09", none, none⟩
        ⟨[("k", [⟨"s1", "a", "b", 1, 10⟩])], ["l1"]⟩
      = (.badRequest "Invalid date format" "Please use the format dd/mm/yyyy.",
         ⟨[("k", [⟨"s1", "a", "b", 1, 10⟩])], ["l1"]⟩) :=
  ⟨by decide,
   C8_invalid_date_rejected ⟨[("k", [⟨"s1", "a", "b", 1, 10⟩])], ["l1"]⟩
     "k" "2021/08/09" none none (by decide)⟩

/-- The external `solana_client::client_error::ClientError`, opaque to the
source except for being displayed. -/
structure ClientError where
  message : String
  deriving Repr, DecidableEq

/-- `AggregatorError` (src/aggregator.rs lines 16-36). -/
inductive AggregatorError where
  | InvalidPublicKey
  | FetchSignaturesError (e : ClientError)
  | FetchTransactionError (e : ClientError)
  | ParseSignatureError (s : String)
  | Elapsed
  deriving Repr, DecidableEq

/-- A parsed `solana_sdk` signature. Parsing (`str::parse::<Signature>`)
is external; on success the parsed value stands for its source string. -/
abbrev Signature := String

/-- A parsed `solana_sdk` public key, likewise external. -/
abbrev Pubkey := String

/-- One element of a `UiParsedMessage.account_keys` list (the external
`ParsedAccount`), of which the source reads only `pubkey`. -/
structure UiParsedAccount where
  pubkey : String
  deriving Repr, DecidableEq

/-- The two `UiMessage` representations read by the source
(src/aggregator.rs lines 152-183): a structured message with parsed
accounts, or a raw message with plain account-key strings. -/
inductive UiMessage where
  | parsed (account_keys : List UiParsedAccount)
  | raw (account_keys : List String)
  deriving Repr, DecidableEq

/-- `UiTransaction`, of which the source destructures only `message`. -/
structure UiTransaction where
  message : UiMessage
  deriving Repr, DecidableEq

/-- `EncodedTransaction`: the `Json` alternative the source handles, and
the remaining alternatives (`LegacyBinary`, `Binary`, `Accounts`) which
its `match` covers with the common arm `_ => {}`
(src/aggregator.rs line 199). -/
inductive EncodedTransaction where
  | json (t : UiTransaction)
  | notJson
  deriving Repr, DecidableEq

/-- The balance part of `UiTransactionStatusMeta`: `pre_balances` and
`post_balances` are `Vec<u64>` in the external crate. -/
structure UiTransactionStatusMeta where
  pre_balances : List Nat
  post_balances : List Nat
  deriving Repr, DecidableEq

/-- `EncodedTransactionWithStatusMeta`: the encoded transaction plus its
optional meta. -/
structure EncodedTransactionWithStatusMeta where
  transaction : EncodedTransaction
  meta : Option UiTransactionStatusMeta
  deriving Repr, DecidableEq

/-- `EncodedConfirmedTransactionWithStatusMeta`, of which the source reads
`block_time` (an `Option<i64>`, modelled as `Option Int`) and
`transaction`. -/
structure ConfirmedTransaction where
  block_time : Option Int
  transaction : EncodedTransactionWithStatusMeta
  deriving Repr, DecidableEq

/-- One element of the signature listing returned by
`get_signatures_for_address`, of which the source reads only the
`signature` string. -/
structure SignatureInfo where
  signature : String
  deriving Repr, DecidableEq

/-- Rust `u64` subtraction as compiled in release builds: wraps modulo
`2^64` when the subtrahend exceeds the minuend (a debug build would panic
on the same input). Arguments are `u64` values, reduced modulo `2^64`. -/
def u64Sub (a b : Nat) : Nat :=
  (a % 2 ^ 64 + 2 ^ 64 - b % 2 ^ 64) % 2 ^ 64

/-- Rust `i64 as u64` cast: two's-complement reinterpretation, applied by
the source to `timestamp` (the block time) in src/aggregator.rs line 191. -/
def i64AsU64 (i : Int) : Nat := (i % 2 ^ 64).toNat

/-- The sender/receiver extraction of `fetch_recent_transactions`
(src/aggregator.rs lines 152-183): the first and second account entries of
the message, falling back to `"unknown"` for a missing entry, in both the
parsed and the raw message representation. -/
def senderReceiver : UiMessage → String × String
  | .parsed account_keys =>
      (((account_keys.get? 0).map UiParsedAccount.pubkey).getD "unknown",
       ((account_keys.get? 1).map UiParsedAccount.pubkey).getD "unknown")
  | .raw account_keys =>
      ((account_keys.get? 0).getD "unknown", (account_keys.get? 1).getD "unknown")

/-- The account-key strings of either message representation. -/
def messageKeys : UiMessage → List String
  | .parsed account_keys => account_keys.map UiParsedAccount.pubkey
  | .raw account_keys => account_keys

/-- The outcome of one iteration of the signature loop. -/
inductive StepResult where
  /-- The `?` on the signature parse: the whole operation fails. -/
  | abort (e : AggregatorError)
  /-- A record is pushed onto the result vector and stored. -/
  | keep (t : TransactionData)
  /-- This identifier contributes nothing and the loop continues. -/
  | skip
  /-- The unchecked indexing `post_balances[1]`/`pre_balances[1]` is out
  of bounds: the thread panics. -/
  | panicked
  deriving Repr, DecidableEq

/-- One iteration of the signature loop of `fetch_recent_transactions`
(src/aggregator.rs lines 132-210). `parse_sig` models the external
`str::parse::<Signature>` and `get_transaction` the RPC call
`client.get_transaction(&signature, UiTransactionEncoding::JsonParsed)`
(whose `map_err` into `FetchTransactionError` is immediately discarded by
the `if let Ok` pattern, so a fetch failure skips this identifier). -/
def processSignature (parse_sig : String → Option Signature)
    (get_transaction : Signature → Except ClientError ConfirmedTransaction)
    (epoch_start_time : Int) (signature_info : SignatureInfo) : StepResult :=
  match parse_sig signature_info.signature with
  | none => .abort (.ParseSignatureError signature_info.signature)
  | some signature =>
    match get_transaction signature with
    | .error _ => .skip
    | .ok transaction_with_meta =>
      match transaction_with_meta.block_time with
      | none => .skip
      | some block_time =>
        if epoch_start_time ≤ block_time then
          match transaction_with_meta.transaction.meta with
          | none => .skip
          | some meta =>
            match transaction_with_meta.transaction.transaction with
            | .json transaction =>
              let sender := (senderReceiver transaction.message).1
              let receiver := (senderReceiver transaction.message).2
              match meta.post_balances[1]?, meta.pre_balances[1]? with
              | some post1, some pre1 =>
                .keep { signature := signature_info.signature, sender, receiver,
                        amount := u64Sub post1 pre1,
                        timestamp := i64AsU64 block_time }
              | _, _ => .panicked
            | .notJson => .skip
        else .skip

/-- The result of running the signature loop: the accumulated result
vector and database on success, the aborting error (the database keeps the
records inserted before it), or a panic. -/
inductive LoopResult where
  | ok (transactions : List TransactionData) (db : DBState)
  | err (e : AggregatorError) (db : DBState)
  | panicked (db : DBState)
  deriving Repr, DecidableEq

/-- The signature loop of `fetch_recent_transactions`
(src/aggregator.rs lines 129-212): each kept record is pushed onto the
result vector and inserted into the database under the queried `address`;
a parse failure aborts the whole loop; a skipped identifier leaves both
unchanged. -/
def fetchLoop (serialize : TransactionData → String)
    (parse_sig : String → Option Signature)
    (get_transaction : Signature → Except ClientError ConfirmedTransaction)
    (epoch_start_time : Int) (address : String) :
    List SignatureInfo → List TransactionData → DBState → LoopResult
  | [], transactions, db => .ok transactions db
  | signature_info :: rest, transactions, db =>
    match processSignature parse_sig get_transaction epoch_start_time signature_info with
    | .abort e => .err e db
    | .panicked => .panicked db
    | .skip =>
        fetchLoop serialize parse_sig get_transaction epoch_start_time address
          rest transactions db
    | .keep t =>
        fetchLoop serialize parse_sig get_transaction epoch_start_time address
          rest (transactions ++ [t]) (add_transaction serialize db address t)

/-- `fetch_recent_transactions` (src/aggregator.rs lines 99-222) after the
epoch start time has been resolved, with the external interactions as
inputs: parse the address (`InvalidPublicKey` on failure), list the
signatures (`FetchSignaturesError` on failure), then run the signature
loop on an empty result vector. The 10-second `timeout` and the
floating-point arithmetic of `get_epoch_start_time` are real-time and
floating-point behaviour outside this embedding; the threshold enters as
the already-resolved `epoch_start_time`. -/
def fetch_recent_transactions (serialize : TransactionData → String)
    (parse_pubkey : String → Option Pubkey)
    (parse_sig : String → Option Signature)
    (get_signatures_for_address : Pubkey → Except ClientError (List SignatureInfo))
    (get_transaction : Signature → Except ClientError ConfirmedTransaction)
    (epoch_start_time : Int) (address : String) (db : DBState) : LoopResult :=
  match parse_pubkey address with
  | none => .err .InvalidPublicKey db
  | some pubkey =>
    match get_signatures_for_address pubkey with
    | .error e => .err (.FetchSignaturesError e) db
    | .ok signatures =>
        fetchLoop serialize parse_sig get_transaction epoch_start_time address
          signatures [] db

theorem senderReceiver_of_no_keys (m : UiMessage) (h : messageKeys m = []) :
    senderReceiver m = ("unknown", "unknown") := by
  cases m with
  | parsed account_keys =>
    simp only [messageKeys, List.map_eq_nil_iff] at h
    simp [senderReceiver, h]
  | raw account_keys =>
    simp only [messageKeys] at h
    simp [senderReceiver, h]

/-- A serializer instance for concrete runs (the theorems hold for every
serializer; the source's is the external `serde_json::to_string`). -/
def serializeSig : TransactionData → String := fun t => t.signature

/-- A signature parser instance that accepts every identifier. -/
def parseAll : String → Option Signature := fun s => some s

/-- The empty database with an empty backing file. -/
def db0 : DBState := ⟨[], []⟩

/-- A fetched transaction with block time 999, JSON-encoded, with meta. -/
def tx999 : ConfirmedTransaction :=
  ⟨some 999, ⟨.json ⟨.raw ["a", "b"]⟩, some ⟨[0, 5], [0, 8]⟩⟩⟩

/-- A fetched transaction with block time 1000, JSON-encoded, with meta
(`pre_balances = [0, 5]`, `post_balances = [0, 8]`). -/
def tx1000 : ConfirmedTransaction :=
  ⟨some 1000, ⟨.json ⟨.raw ["a", "b"]⟩, some ⟨[0, 5], [0, 8]⟩⟩⟩

/-- A fetched transaction with block time 1000 whose `meta` is absent. -/
def txNoMeta : ConfirmedTransaction :=
  ⟨some 1000, ⟨.json ⟨.raw ["a", "b"]⟩, none⟩⟩

/-- C2 (amended): within one `fetch_recent_transactions` batch, once the
identifier parses and the detail fetch succeeds and the block time is
present, a transaction strictly before the epoch-start threshold is
dropped — the loop continues with the result vector and the database
unchanged — and a transaction at or after the threshold is normalized,
appended to the returned vector and inserted into the store under the
queried address, provided it also has meta, JSON encoding and a second
entry in both balance lists (side conditions the source imposes before
normalizing, which the claim's universal wording omits). -/
theorem C2_epoch_threshold (serialize : TransactionData → String)
    (parse_sig : String → Option Signature)
    (get_transaction : Signature → Except ClientError ConfirmedTransaction)
    (es : Int) (addr : String) (si : SignatureInfo) (rest : List SignatureInfo)
    (acc : List TransactionData) (db : DBState) (sig : Signature)
    (tx : ConfirmedTransaction) (bt : Int)
    (hp : parse_sig si.signature = some sig)
    (hg : get_transaction sig = .ok tx)
    (hbt : tx.block_time = some bt) :
    (bt < es →
      fetchLoop serialize parse_sig get_transaction es addr (si :: rest) acc db
        = fetchLoop serialize parse_sig get_transaction es addr rest acc db) ∧
    (∀ (meta : UiTransactionStatusMeta) (transaction : UiTransaction)
        (post1 pre1 : Nat), es ≤ bt →
      tx.transaction.meta = some meta →
      tx.transaction.transaction = .json transaction →
      meta.post_balances[1]? = some post1 →
      meta.pre_balances[1]? = some pre1 →
      fetchLoop serialize parse_sig get_transaction es addr (si :: rest) acc db
        = fetchLoop serialize parse_sig get_transaction es addr rest
            (acc ++ [⟨si.signature, (senderReceiver transaction.message).1,
                      (senderReceiver transaction.message).2,
                      u64Sub post1 pre1, i64AsU64 bt⟩])
            (add_transaction serialize db addr
              ⟨si.signature, (senderReceiver transaction.message).1,
               (senderReceiver transaction.message).2,
               u64Sub post1 pre1, i64AsU64 bt⟩)) := by
  constructor
  · intro hlt
    simp [fetchLoop, processSignature, hp, hg, hbt, Int.not_le.mpr hlt]
  · intro meta transaction post1 pre1 hin hmeta hjson hpost hpre
    simp [fetchLoop, processSignature, hp, hg, hbt, hin, hmeta, hjson,
      hpost, hpre]

/-- Witness for C2 at the spec's epoch-boundary scenario (epoch start
1000): block time 999 is dropped — nothing returned, nothing stored — and
block time 1000 is returned and stored under the queried address. -/
theorem C2_epoch_threshold_witness :
    (fetchLoop serializeSig parseAll (fun _ => .ok tx999) 1000 "addr"
        [⟨"s9"⟩] [] db0 = .ok [] db0) ∧
    (fetchLoop serializeSig parseAll (fun _ => .ok tx1000) 1000 "addr"
        [⟨"s10"⟩] [] db0
      = .ok [⟨"s10", "a", "b", 3, 1000⟩]
          (add_transaction serializeSig db0 "addr" ⟨"s10", "a", "b", 3, 1000⟩)) :=
  ⟨((C2_epoch_threshold serializeSig parseAll (fun _ => .ok tx999) 1000 "addr"
      ⟨"s9"⟩ [] [] db0 "s9" tx999 999 rfl rfl rfl).1 (by decide)).trans rfl,
   ((C2_epoch_threshold serializeSig parseAll (fun _ => .ok tx1000) 1000 "addr"
      ⟨"s10"⟩ [] [] db0 "s10" tx1000 1000 rfl rfl rfl).2
      ⟨[0, 5], [0, 8]⟩ ⟨.raw ["a", "b"]⟩ 8 5 (by decide)
      rfl rfl rfl rfl).trans rfl⟩

/-- Counterexample to C2 as stated: a fetched transaction whose block time
is present and at the threshold (1000 ≥ 1000) but whose `meta` is absent
is neither returned nor stored — the loop ends with an empty result vector
and the database unchanged — although the claim requires every such
transaction to be normalized, returned and inserted. -/
theorem C2_at_threshold_but_meta_absent :
    fetchLoop serializeSig parseAll (fun _ => .ok txNoMeta) 1000 "addr"
        [⟨"s1"⟩] [] db0 = .ok [] db0 := rfl

/-- C5: two-tier error handling of the signature loop: a signature that
fails to parse aborts the whole operation with `ParseSignatureError`
immediately — the remaining identifiers are never examined — whereas a
failed detail fetch for one parsed signature only skips that identifier
and the loop continues with the rest. -/
theorem C5_two_tier_errors (serialize : TransactionData → String)
    (parse_sig : String → Option Signature)
    (get_transaction : Signature → Except ClientError ConfirmedTransaction)
    (es : Int) (addr : String) (si : SignatureInfo) (rest : List SignatureInfo)
    (acc : List TransactionData) (db : DBState) :
    (parse_sig si.signature = none →
      fetchLoop serialize parse_sig get_transaction es addr (si :: rest) acc db
        = .err (.ParseSignatureError si.signature) db) ∧
    (∀ (sig : Signature) (e : ClientError),
      parse_sig si.signature = some sig → get_transaction sig = .error e →
      fetchLoop serialize parse_sig get_transaction es addr (si :: rest) acc db
        = fetchLoop serialize parse_sig get_transaction es addr rest acc db) := by
  constructor
  · intro hp
    simp [fetchLoop, processSignature, hp]
  · intro sig e hp hg
    simp [fetchLoop, processSignature, hp, hg]

/-- Witness for C5: with two queued identifiers, a parse failure on the
first aborts the batch at once (the second is never reached), while a
fetch failure on the first merely skips it and processing continues with
the second. -/
theorem C5_two_tier_errors_witness :
    (fetchLoop serializeSig (fun _ => none) (fun _ => .ok tx1000) 1000 "addr"
        [⟨"s"⟩, ⟨"t"⟩] [] db0 = .err (.ParseSignatureError "s") db0) ∧
    (fetchLoop serializeSig parseAll (fun _ => .error ⟨"boom"⟩) 1000 "addr"
        [⟨"s"⟩, ⟨"t"⟩] [] db0
      = fetchLoop serializeSig parseAll (fun _ => .error ⟨"boom"⟩) 1000 "addr"
          [⟨"t"⟩] [] db0) :=
  ⟨(C5_two_tier_errors serializeSig (fun _ => none) (fun _ => .ok tx1000)
      1000 "addr" ⟨"s"⟩ [⟨"t"⟩] [] db0).1 rfl,
   (C5_two_tier_errors serializeSig parseAll (fun _ => .error ⟨"boom"⟩)
      1000 "addr" ⟨"s"⟩ [⟨"t"⟩] [] db0).2 "s" ⟨"boom"⟩ rfl rfl⟩

/-- An in-epoch fetched transaction whose second balance entry decreases:
`pre_balances[1] = 5`, `post_balances[1] = 3`. -/
def txNegDelta : ConfirmedTransaction :=
  ⟨some 1000, ⟨.json ⟨.raw ["a", "b"]⟩, some ⟨[0, 5], [0, 3]⟩⟩⟩

/-- C6: evaluation of the code at a negative balance delta. The source
computes `post_balances[1] - pre_balances[1]` in `u64` and stores the
result directly, so at `post = 3, pre = 5` the produced record carries the
silently wrapped amount `2^64 - 2` (a debug build would panic at the
subtraction) — not a non-negative difference. -/
theorem C6_negative_delta_wraps :
    processSignature parseAll (fun _ => .ok txNegDelta) 1000 ⟨"s6"⟩
      = .keep ⟨"s6", "a", "b", 18446744073709551614, 1000⟩ ∧
    u64Sub 3 5 = 2 ^ 64 - 2 := ⟨rfl, rfl⟩

/-- An in-epoch fetched transaction with meta whose encoding is not the
JSON one (`LegacyBinary`/`Binary`/`Accounts` in the source). -/
def txNotJson : ConfirmedTransaction :=
  ⟨some 1000, ⟨.notJson, some ⟨[0, 5], [0, 8]⟩⟩⟩

/-- Counterexample to C7 as stated: an in-epoch transaction (block time
1000 ≥ epoch start 1000, meta present) whose encoding is not the JSON one
falls into the source's `_ => {}` arm: no record is produced — the loop
returns an empty vector and an unchanged database — although the claim
says a record with `"unknown"` fields is still produced rather than the
transaction being omitted on account of its encoding. -/
theorem C7_encoding_not_json_skipped :
    processSignature parseAll (fun _ => .ok txNotJson) 1000 ⟨"s7"⟩
        = .skip ∧
    fetchLoop serializeSig parseAll (fun _ => .ok txNotJson) 1000 "addr"
        [⟨"s7"⟩] [] db0 = .ok [] db0 := ⟨rfl, rfl⟩

/-- C7 (amended): the `"unknown"` sentinel applies to the account list
inside a JSON-encoded message, not to the encoding itself: an in-epoch
JSON-encoded transaction with meta whose message exposes no positional
account entries still yields a record with sender and receiver
`"unknown"` (provided both balance lists have a second entry), while a
transaction whose encoding is not the JSON one is skipped entirely. -/
theorem C7_unknown_sentinel (parse_sig : String → Option Signature)
    (get_transaction : Signature → Except ClientError ConfirmedTransaction)
    (es : Int) (si : SignatureInfo) (sig : Signature)
    (tx : ConfirmedTransaction) (bt : Int) (meta : UiTransactionStatusMeta)
    (transaction : UiTransaction) (post1 pre1 : Nat)
    (hp : parse_sig si.signature = some sig)
    (hg : get_transaction sig = .ok tx)
    (hbt : tx.block_time = some bt) (hin : es ≤ bt)
    (hmeta : tx.transaction.meta = some meta)
    (hjson : tx.transaction.transaction = .json transaction)
    (hkeys : messageKeys transaction.message = [])
    (hpost : meta.post_balances[1]? = some post1)
    (hpre : meta.pre_balances[1]? = some pre1) :
    processSignature parse_sig get_transaction es si
      = .keep ⟨si.signature, "unknown", "unknown",
               u64Sub post1 pre1, i64AsU64 bt⟩ := by
  simp [processSignature, hp, hg, hbt, hin, hmeta, hjson, hpost, hpre,
    senderReceiver_of_no_keys transaction.message hkeys]

/-- An in-epoch JSON transaction with meta and an empty account list. -/
def txNoAccounts : ConfirmedTransaction :=
  ⟨some 1000, ⟨.json ⟨.raw []⟩, some ⟨[0, 5], [0, 8]⟩⟩⟩

/-- Witness for the amended C7: an empty raw account list yields a kept
record with both sentinel fields. -/
theorem C7_unknown_sentinel_witness :
    processSignature parseAll (fun _ => .ok txNoAccounts) 1000 ⟨"s7b"⟩
      = .keep ⟨"s7b", "unknown", "unknown", 3, 1000⟩ :=
  C7_unknown_sentinel parseAll (fun _ => .ok txNoAccounts) 1000 ⟨"s7b"⟩
    "s7b" txNoAccounts 1000 ⟨[0, 5], [0, 8]⟩ ⟨.raw []⟩ 8 5
    rfl rfl rfl (by decide) rfl rfl rfl rfl rfl

/-- C9: the amount computation indexes both balance lists with no bounds
check: for an in-epoch JSON-encoded transaction with meta, the iteration
panics precisely when either balance list lacks a second entry, and is
total — producing a record — when both have one; the account list, in
contrast, falls back to a sentinel and can never make the step panic. -/
theorem C9_balance_indexing_unchecked (parse_sig : String → Option Signature)
    (get_transaction : Signature → Except ClientError ConfirmedTransaction)
    (es : Int) (si : SignatureInfo) (sig : Signature)
    (tx : ConfirmedTransaction) (bt : Int) (meta : UiTransactionStatusMeta)
    (transaction : UiTransaction)
    (hp : parse_sig si.signature = some sig)
    (hg : get_transaction sig = .ok tx)
    (hbt : tx.block_time = some bt) (hin : es ≤ bt)
    (hmeta : tx.transaction.meta = some meta)
    (hjson : tx.transaction.transaction = .json transaction) :
    (meta.post_balances[1]? = none ∨ meta.pre_balances[1]? = none →
      processSignature parse_sig get_transaction es si = .panicked) ∧
    (∀ (post1 pre1 : Nat), meta.post_balances[1]? = some post1 →
      meta.pre_balances[1]? = some pre1 →
      processSignature parse_sig get_transaction es si
        = .keep ⟨si.signature, (senderReceiver transaction.message).1,
                 (senderReceiver transaction.message).2,
                 u64Sub post1 pre1, i64AsU64 bt⟩) := by
  constructor
  · intro h
    rcases h with h | h
    · simp [processSignature, hp, hg, hbt, hin, hmeta, hjson, h]
    · cases hpost : meta.post_balances[1]? with
      | none => simp [processSignature, hp, hg, hbt, hin, hmeta, hjson, hpost]
      | some post1 =>
          simp [processSignature, hp, hg, hbt, hin, hmeta, hjson, hpost, h]
  · intro post1 pre1 hpost hpre
    simp [processSignature, hp, hg, hbt, hin, hmeta, hjson, hpost, hpre]

/-- An in-epoch JSON transaction with meta whose `pre_balances` list has a
single entry. -/
def txShortBalances : ConfirmedTransaction :=
  ⟨some 1000, ⟨.json ⟨.raw ["a", "b"]⟩, some ⟨[5], [0, 8]⟩⟩⟩

/-- Witness for C9: with `pre_balances = [5]` the panic branch is reached
on a concrete in-epoch JSON-encoded transaction with meta. -/
theorem C9_balance_indexing_unchecked_witness :
    processSignature parseAll (fun _ => .ok txShortBalances) 1000 ⟨"s9c"⟩
      = .panicked :=
  (C9_balance_indexing_unchecked parseAll (fun _ => .ok txShortBalances)
    1000 ⟨"s9c"⟩ "s9c" txShortBalances 1000 ⟨[5], [0, 8]⟩ ⟨.raw ["a", "b"]⟩
    rfl rfl rfl (by decide) rfl rfl).1 (Or.inr rfl)

end Solana
